import Mathlib

/-!
Shallow embedding of `aws-keyrotation.py` (AWS KeyRotation Enforcer).

Timestamps are modelled as a naive instant (an `Int`, in minutes) together
with an optional timezone offset; `datetime.replace(tzinfo=None)` keeps only
the naive instant.  `datetime.now()` is a parameter `now : Int`, and
`timedelta(days = d)` is `d * 1440` minutes.

Provider calls are modelled as pure functions supplied by an `IamModel`,
and side effects (SES sends, `update_access_key` calls, warnings) are
collected as explicit action values.
-/

namespace KeyRotation

/-- A tag on an IAM user (AWS `{'Key': ..., 'Value': ...}` pair). -/
structure Tag where
  key : String
  value : String
deriving DecidableEq, Repr

/-- An IAM user record as returned by `list_users` / `get_user`. -/
structure IamUser where
  userName : String
  tags : List Tag
deriving DecidableEq, Repr

/-- A creation timestamp: the naive instant (minutes) plus the timezone
offset that `replace(tzinfo=None)` discards. -/
structure Timestamp where
  naive : Int
  tzOffset : Option Int
deriving DecidableEq, Repr

/-- Python `datetime.replace(tzinfo=None)`: keep the naive instant, drop the offset. -/
def Timestamp.replaceTzNone (t : Timestamp) : Int := t.naive

/-- One element of the Python list built by `__getAwsIamUserList`.  Because
the loop body does `users.append(response['Users'])`, a later page is
appended as a single nested list element, so the list is heterogeneous:
user dicts from the first page, whole pages afterwards. -/
inductive UserListEntry where
  | user (u : IamUser)
  | page (p : List IamUser)
deriving DecidableEq, Repr

/-- The `while response['IsTruncated']` loop of `__getAwsIamUserList`:
each further response's `Users` list is `append`ed as one element. -/
def followPages : List (List IamUser) → List UserListEntry
  | [] => []
  | p :: ps => UserListEntry.page p :: followPages ps

/-- Embeds `__getAwsIamUserList`: the provider returns `firstPage` from the initial
`list_users` call and `rest` from the marker-driven follow-up calls
(`rest = []` means the first response was not truncated). -/
def getAwsIamUserList (firstPage : List IamUser) (rest : List (List IamUser)) :
    List UserListEntry :=
  firstPage.map UserListEntry.user ++ followPages rest

/-- The flat sequence the spec describes: every page's users, in order. -/
def flatUserList (firstPage : List IamUser) (rest : List (List IamUser)) :
    List UserListEntry :=
  (firstPage ++ rest.flatten).map UserListEntry.user

/-! ### The sender-address pattern of `__notifyKeyAges`

`mailPattern = r"(^[a-zA-Z0-9_.+-]+@[a-zA-Z0-9-]+\.[a-zA-Z0-9-.]+$)"`,
used with `re.match`.  The character classes are disjoint from `@`, and the
first domain label's class excludes `.`, so matching is deterministic:
split at the first `@`, then at the first `.` of the domain part.  Python's
`$` also matches just before a single trailing newline. -/

/-- Character class `[a-zA-Z0-9_.+-]`. -/
def isLocalChar (c : Char) : Bool :=
  c.isAlpha || c.isDigit || c = '_' || c = '.' || c = '+' || c = '-'

/-- Character class `[a-zA-Z0-9-]`. -/
def isDomainChar (c : Char) : Bool :=
  c.isAlpha || c.isDigit || c = '-'

/-- Character class `[a-zA-Z0-9-.]`. -/
def isDomainTailChar (c : Char) : Bool :=
  isDomainChar c || c = '.'

/-- Match `^[a-zA-Z0-9_.+-]+@[a-zA-Z0-9-]+\.[a-zA-Z0-9-.]+$` against a
character list whose trailing-newline allowance is already handled. -/
def matchMailChars (cs : List Char) : Bool :=
  let l := cs.takeWhile (fun c => c ≠ '@')
  match cs.dropWhile (fun c => c ≠ '@') with
  | '@' :: dom =>
    (!l.isEmpty && l.all isLocalChar) &&
    (let d1 := dom.takeWhile (fun c => c ≠ '.')
     match dom.dropWhile (fun c => c ≠ '.') with
     | '.' :: d2 =>
       !d1.isEmpty && d1.all isDomainChar && !d2.isEmpty && d2.all isDomainTailChar
     | _ => false)
  | _ => false

/-- Tests `re.match(mailPattern, s) is not None`: full-string match, with Python's
`$` accepting one trailing newline. -/
def reMatchMailPattern (s : String) : Bool :=
  match s.data.reverse with
  | '\n' :: rest => matchMailChars rest.reverse
  | _ => matchMailChars s.data

/-! ### Contact resolution and the key inventory -/

/-- Access-key metadata as returned by `list_access_keys`. -/
structure AccessKeyMeta where
  accessKeyId : String
  status : String
  createDate : Timestamp
deriving DecidableEq, Repr

/-- The pure face of the IAM provider consulted while building the
inventory: `get_user(UserName=u).User.Tags` and
`list_access_keys(UserName=u).AccessKeyMetadata`. -/
structure IamModel where
  userTags : String → List Tag
  listAccessKeys : String → List AccessKeyMeta

/-- Embeds `__getUserEmail`: scan the user's tags for the first tag whose key is
literally `Contact`; its value is the contact, else the empty string (the
`KeyError` path only logs a warning and falls through to `return ''`). -/
def getUserEmail (iam : IamModel) (userName : String) : String :=
  match (iam.userTags userName).find? (fun t => t.key = "Contact") with
  | some t => t.value
  | none => ""

/-- One entry of an `AccessKeyInfos` list built by `__getAwsAccessKeyAge`. -/
structure AccessKeyInfo where
  accessKeyId : String
  accessKeyStatus : String
  createDate : Timestamp
  contactDetails : String
deriving DecidableEq, Repr

/-- One entry of the `iamAccessKeys['Keys']` inventory. -/
structure KeyEntry where
  userName : String
  accessKeyInfos : List AccessKeyInfo
deriving DecidableEq, Repr

/-- The inner loop of `__getAwsAccessKeyAge`: one `AccessKeyInfo` per
metadata record, each re-resolving the user's contact. -/
def mkAccessKeyInfos (iam : IamModel) (userName : String) : List AccessKeyInfo :=
  (iam.listAccessKeys userName).map (fun k =>
    { accessKeyId := k.accessKeyId
      accessKeyStatus := k.status
      createDate := k.createDate
      contactDetails := getUserEmail iam userName })

/-- Embeds `__getAwsAccessKeyAge` over a list of proper user records: a user is
appended to `iamAccessKeys['Keys']` only when `len(accessKeyInfos) > 0`. -/
def getAwsAccessKeyAge (iam : IamModel) : List IamUser → List KeyEntry
  | [] => []
  | u :: us =>
    let infos := mkAccessKeyInfos iam u.userName
    if infos.length > 0 then
      { userName := u.userName, accessKeyInfos := infos } :: getAwsAccessKeyAge iam us
    else
      getAwsAccessKeyAge iam us

/-- Embeds `__getAwsAccessKeyAge` over what `__getAwsIamUserList` actually returns:
subscripting a nested page list with `['UserName']` raises `TypeError`. -/
def getAwsAccessKeyAgeE (iam : IamModel) : List UserListEntry → Except String (List KeyEntry)
  | [] => Except.ok []
  | UserListEntry.page _ :: _ => Except.error "TypeError: list indices must be integers"
  | UserListEntry.user u :: rest => do
    let tail ← getAwsAccessKeyAgeE iam rest
    let infos := mkAccessKeyInfos iam u.userName
    Except.ok (if infos.length > 0 then
      { userName := u.userName, accessKeyInfos := infos } :: tail
    else tail)

/-! ### Threshold dates (`__getNotifyKeyAgeDate`, `__getDeactivateKeyAgeDate`) -/

/-- Minutes per day: `timedelta(days=1)`. -/
def minutesPerDay : Int := 1440

/-- Embeds `__getNotifyKeyAgeDate`: `datetime.now() - timedelta(days=ageDays)`. -/
def getNotifyKeyAgeDate (now ageDays : Int) : Int :=
  now - ageDays * minutesPerDay

/-- Embeds `__getDeactivateKeyAgeDate`: same computation as the notify date
(the caller passes `notifyKeyAge + 7` as `ageDays`). -/
def getDeactivateKeyAgeDate (now ageDays : Int) : Int :=
  now - ageDays * minutesPerDay

/-! ### Classify and act (`__identifyKeyAges`) -/

/-- An observable side effect of one pass of `__identifyKeyAges`:
a call into `__notifyKeyAges` (the dispatcher), an
`update_access_key(..., Status='Inactive')` call, or the warning logged
when an old key has no contact. -/
inductive Action where
  | notifyDispatch (info : AccessKeyInfo)
  | updateAccessKey (userName : String) (accessKeyId : String) (status : String)
  | warnNoContact
deriving DecidableEq, Repr

/-- The body of the inner loop of `__identifyKeyAges` for one key. -/
def classifyKey (notifyKeyAgeDate deactivateKeyAgeDate : Int) (userName : String)
    (info : AccessKeyInfo) : List Action :=
  if info.createDate.replaceTzNone < notifyKeyAgeDate ∧
      ¬ info.createDate.replaceTzNone < deactivateKeyAgeDate ∧
      info.accessKeyStatus = "Active" then
    if ¬ info.contactDetails = "" then
      [Action.notifyDispatch info]
    else
      [Action.warnNoContact]
  else if info.createDate.replaceTzNone < deactivateKeyAgeDate ∧
      info.accessKeyStatus = "Active" then
    [Action.updateAccessKey userName info.accessKeyId "Inactive"]
  else
    []

/-- Embeds `__identifyKeyAges`: both nested loops, collecting every action in
order. -/
def identifyKeyAges (notifyKeyAgeDate deactivateKeyAgeDate : Int)
    (entries : List KeyEntry) : List Action :=
  entries.flatMap (fun e =>
    e.accessKeyInfos.flatMap (classifyKey notifyKeyAgeDate deactivateKeyAgeDate e.userName))

/-! ### The notification dispatcher (`__notifyKeyAges`) -/

/-- The argument record of a `ses.send_email` call. -/
structure SendCall where
  source : String
  toAddresses : List String
  subject : String
  body : String
deriving DecidableEq, Repr

/-- The `send_email` call `__notifyKeyAges` builds for a key. -/
def buildSendCall (sourceMail : String) (info : AccessKeyInfo) : SendCall :=
  { source := sourceMail
    toAddresses := [info.contactDetails]
    subject := "Rotate your AWS Credentials (KeyID: " ++ info.accessKeyId ++ ")"
    body := "Dear " ++ info.contactDetails ++
      ",\n\nPlease rotate your AWS Access Key immediately.\n It will be disabled otherwise shortly if not rotated.\n\n Your AWS Keyrotation Service" }

/-- How one dispatcher invocation ended. -/
inductive NotifyOutcome where
  | noSourceMail
  | invalidSourceMail
  | sent (call : SendCall)
  | sendFailed (call : SendCall)
deriving DecidableEq, Repr

/-- Embeds `__notifyKeyAges` with its exception flow explicit: `sourceMail` is the
`SOURCEMAIL` environment variable (`none` raises `KeyError`, caught), an
invalid pattern raises `SyntaxError` (caught), and `send` is the mail
capability, which may fail with any error; the bare `except:` catches every
send failure.  The result is `Except.error` only where an exception would
escape the function — by construction of the handlers, never. -/
def notifyKeyAges (sourceMail : Option String) (send : SendCall → Except String Unit)
    (info : AccessKeyInfo) : Except String NotifyOutcome :=
  match sourceMail with
  | none => Except.ok NotifyOutcome.noSourceMail
  | some sm =>
    if reMatchMailPattern sm then
      let call := buildSendCall sm info
      match send call with
      | Except.ok _ => Except.ok (NotifyOutcome.sent call)
      | Except.error _ => Except.ok (NotifyOutcome.sendFailed call)
    else
      Except.ok NotifyOutcome.invalidSourceMail

/-! ### Entry point (`lambda_handler`) -/

/-- Python `int(s)` restricted to what arrives via the environment: strip
ASCII whitespace, optional sign, then decimal digits with single
underscores allowed between digits. `none` models an uncaught
`ValueError`. -/
def parseDigitsGo (acc : Nat) : List Char → Option Nat
  | [] => some acc
  | '_' :: c :: cs =>
    if c.isDigit then parseDigitsGo (acc * 10 + (c.toNat - '0'.toNat)) cs else none
  | '_' :: [] => none
  | c :: cs =>
    if c.isDigit then parseDigitsGo (acc * 10 + (c.toNat - '0'.toNat)) cs else none

/-- Digit run of `int()`: a digit, then digits with single underscores between them. -/
def parseDigits : List Char → Option Nat
  | [] => none
  | c :: cs => if c.isDigit then parseDigitsGo (c.toNat - '0'.toNat) cs else none

/-- ASCII whitespace stripped by `int()`. -/
def isPySpace (c : Char) : Bool :=
  c = ' ' || c = '\t' || c = '\n' || c = '\r' || c = '\x0b' || c = '\x0c'

/-- Python `int(s)` for a decimal string. -/
def pyInt (s : String) : Option Int :=
  let cs := ((s.data.dropWhile isPySpace).reverse.dropWhile isPySpace).reverse
  match cs with
  | '+' :: rest => (parseDigits rest).map Int.ofNat
  | '-' :: rest => (parseDigits rest).map (fun n => -(Int.ofNat n))
  | rest => (parseDigits rest).map Int.ofNat

/-- The `NOTIFYKEYAGE` block of `lambda_handler`: only `KeyError` (variable
absent) is caught, with fallback 30; `int()`'s `ValueError` on a present
but malformed value escapes. -/
def readNotifyKeyAge (envNotifyKeyAge : Option String) : Except String Int :=
  match envNotifyKeyAge with
  | none => Except.ok 30
  | some s =>
    match pyInt s with
    | some v => Except.ok v
    | none => Except.error "ValueError: invalid literal for int()"

/-- Line 181: `deactivateKeyAge = notifyKeyAge + 7`. -/
def deactivateKeyAgeOf (notifyKeyAge : Int) : Int := notifyKeyAge + 7

/-- The paginated IAM user listing a run sees. -/
structure UserPages where
  firstPage : List IamUser
  rest : List (List IamUser)

/-- Embeds `lambda_handler` as the trace of classify-and-act actions it reaches:
read configuration, derive both threshold dates, list users (with the
nested-page append), build the inventory, classify.  An `Except.error`
is an exception escaping the handler. -/
def lambda_handler (envNotifyKeyAge : Option String) (pages : UserPages)
    (iam : IamModel) (now : Int) : Except String (List Action) := do
  let notifyKeyAge ← readNotifyKeyAge envNotifyKeyAge
  let deactivateKeyAge := deactivateKeyAgeOf notifyKeyAge
  let notifyKeyAgeDate := getNotifyKeyAgeDate now notifyKeyAge
  let deactivateKeyAgeDate := getDeactivateKeyAgeDate now deactivateKeyAge
  let iamUsers := getAwsIamUserList pages.firstPage pages.rest
  let iamAccessKeys ← getAwsAccessKeyAgeE iam iamUsers
  Except.ok (identifyKeyAges notifyKeyAgeDate deactivateKeyAgeDate iamAccessKeys)

/-! ### Observables used to state the claims -/

/-- Tests whether an action is an `update_access_key` call for key `kid`. -/
def isUpdateFor (kid : String) : Action → Bool
  | Action.updateAccessKey _ k _ => k == kid
  | _ => false

/-- Tests whether an action is a dispatcher call for key `kid`. -/
def isDispatchFor (kid : String) : Action → Bool
  | Action.notifyDispatch info => info.accessKeyId == kid
  | _ => false

/-- All occurrences of key id `kid` in the inventory, with the owning
user name. -/
def keyOccurrences (kid : String) (entries : List KeyEntry) :
    List (String × AccessKeyInfo) :=
  entries.flatMap (fun e =>
    (e.accessKeyInfos.filter (fun i => i.accessKeyId == kid)).map
      (fun i => (e.userName, i)))

/-- The outcome kind of an action, forgetting which record it carries. -/
inductive ActionKind where
  | dispatched
  | updated
  | warned
deriving DecidableEq, Repr

/-- Projects an action to its outcome kind. -/
def actionKind : Action → ActionKind
  | Action.notifyDispatch _ => ActionKind.dispatched
  | Action.updateAccessKey _ _ _ => ActionKind.updated
  | Action.warnNoContact => ActionKind.warned

/-! ### Sample records used to instantiate the theorems -/

/-- An `Active` key aged 32 days at `now = 0` (between the 30-day notify
boundary and the 37-day deactivate boundary), with a contact. -/
def sampleInfo : AccessKeyInfo :=
  { accessKeyId := "AKIAEXAMPLE"
    accessKeyStatus := "Active"
    createDate := { naive := -46080, tzOffset := some 120 }
    contactDetails := "alice@example.com" }

/-- The same key with its timezone offset removed. -/
def sampleInfoTz : AccessKeyInfo :=
  { sampleInfo with createDate := { naive := -46080, tzOffset := none } }

/-- An `Active` key aged 40 days at `now = 0` (past the 37-day deactivate
boundary). -/
def oldInfo : AccessKeyInfo :=
  { accessKeyId := "AKIAOLD"
    accessKeyStatus := "Active"
    createDate := { naive := -57600, tzOffset := some 0 }
    contactDetails := "carol@example.com" }

/-- An `Active` key created exactly at the 37-day deactivate boundary
instant for `now = 0`, `NOTIFYKEYAGE = 30`. -/
def boundaryInfo : AccessKeyInfo :=
  { accessKeyId := "AKIABOUNDARY"
    accessKeyStatus := "Active"
    createDate := { naive := -53280, tzOffset := some 0 }
    contactDetails := "bob@example.com" }

/-- An `Inactive` key, very old and without a contact. -/
def inactiveInfo : AccessKeyInfo :=
  { accessKeyId := "AKIAINACTIVE"
    accessKeyStatus := "Inactive"
    createDate := { naive := -1000000, tzOffset := none }
    contactDetails := "" }

/-! ### Evaluation lemmas for `classifyKey` -/

/-- A key whose status is not `Active` triggers no action. -/
lemma classifyKey_not_active (nD dD : Int) (un : String) (info : AccessKeyInfo)
    (h : info.accessKeyStatus ≠ "Active") :
    classifyKey nD dD un info = [] := by
  unfold classifyKey
  rw [if_neg (fun hc => h hc.2.2), if_neg (fun hc => h hc.2)]

/-- An `Active` key created strictly before the deactivate boundary is
deactivated, whatever its contact. -/
lemma classifyKey_deactivate (nD dD : Int) (un : String) (info : AccessKeyInfo)
    (hactive : info.accessKeyStatus = "Active")
    (hage : info.createDate.replaceTzNone < dD) :
    classifyKey nD dD un info =
      [Action.updateAccessKey un info.accessKeyId "Inactive"] := by
  unfold classifyKey
  rw [if_neg (fun hc => hc.2.1 hage), if_pos ⟨hage, hactive⟩]

/-- An `Active` key between the boundaries with a non-empty contact is
dispatched for notification. -/
lemma classifyKey_notify (nD dD : Int) (un : String) (info : AccessKeyInfo)
    (hactive : info.accessKeyStatus = "Active")
    (hlo : ¬ info.createDate.replaceTzNone < dD)
    (hhi : info.createDate.replaceTzNone < nD)
    (hcontact : info.contactDetails ≠ "") :
    classifyKey nD dD un info = [Action.notifyDispatch info] := by
  unfold classifyKey
  rw [if_pos ⟨hhi, hlo, hactive⟩, if_pos hcontact]

/-- Actions produced for a key with another id never match `isUpdateFor`. -/
lemma classifyKey_filter_update_ne (nD dD : Int) (un : String)
    (info : AccessKeyInfo) (kid : String) (h : info.accessKeyId ≠ kid) :
    (classifyKey nD dD un info).filter (isUpdateFor kid) = [] := by
  unfold classifyKey
  split_ifs <;> simp [isUpdateFor, h]

/-- Actions produced for a key with another id never match `isDispatchFor`. -/
lemma classifyKey_filter_dispatch_ne (nD dD : Int) (un : String)
    (info : AccessKeyInfo) (kid : String) (h : info.accessKeyId ≠ kid) :
    (classifyKey nD dD un info).filter (isDispatchFor kid) = [] := by
  unfold classifyKey
  split_ifs <;> simp [isDispatchFor, h]

/-- Dropping elements whose image is empty: a `flatMap` may be restricted
to any filter that keeps every element with a non-empty image. -/
lemma flatMap_eq_filter_flatMap {α β : Type} (c : α → Bool) (F : α → List β)
    (h : ∀ a, c a = false → F a = []) :
    ∀ l : List α, l.flatMap F = (l.filter c).flatMap F := by
  intro l
  induction l with
  | nil => rfl
  | cons a l ih =>
    by_cases hc : c a = true
    · simp only [List.flatMap_cons, List.filter_cons, hc, if_true, ih]
    · have hc' : c a = false := by simpa using hc
      simp only [List.flatMap_cons, List.filter_cons, hc', Bool.false_eq_true,
        if_false, ih, h a hc', List.nil_append]

/-- The actions of a whole pass that concern key `kid` are exactly the
actions its occurrences produce. -/
lemma identify_filter_key (nD dD : Int) (entries : List KeyEntry) (kid : String)
    (p : Action → Bool)
    (hne : ∀ un info, info.accessKeyId ≠ kid →
      (classifyKey nD dD un info).filter p = []) :
    (identifyKeyAges nD dD entries).filter p =
      (keyOccurrences kid entries).flatMap
        (fun q => (classifyKey nD dD q.1 q.2).filter p) := by
  unfold identifyKeyAges keyOccurrences
  rw [List.filter_flatMap, List.flatMap_assoc]
  congr 1
  funext e
  rw [List.filter_flatMap, List.flatMap_map]
  exact flatMap_eq_filter_flatMap (fun i => i.accessKeyId == kid)
    (fun i => (classifyKey nD dD e.userName i).filter p)
    (fun i hi => hne e.userName i (by simpa using hi)) e.accessKeyInfos

/-- Every occurrence of `kid` carries `kid` as its key id. -/
lemma keyOccurrences_id (kid : String) (entries : List KeyEntry) :
    ∀ q ∈ keyOccurrences kid entries, q.2.accessKeyId = kid := by
  intro q hq
  unfold keyOccurrences at hq
  simp only [List.mem_flatMap, List.mem_map, List.mem_filter] at hq
  obtain ⟨e, _, i, ⟨_, hid⟩, rfl⟩ := hq
  simpa using hid

end KeyRotation

namespace KeyRotation

/-! ### Claim theorems -/

/-- C1: the enumerate-users operation is claimed to return all users of
every page collapsed into one flat sequence.  Evaluated at a two-page
listing, the code instead appends the second page as a single nested
element: the result is not the flat sequence and the second page's user
does not occur as a user element at all. -/
theorem claim_C1_pagination_not_flat :
    getAwsIamUserList [⟨"alice", []⟩] [[⟨"bob", []⟩]] =
      [UserListEntry.user ⟨"alice", []⟩, UserListEntry.page [⟨"bob", []⟩]] ∧
    getAwsIamUserList [⟨"alice", []⟩] [[⟨"bob", []⟩]] ≠
      flatUserList [⟨"alice", []⟩] [[⟨"bob", []⟩]] ∧
    UserListEntry.user ⟨"bob", []⟩ ∉ getAwsIamUserList [⟨"alice", []⟩] [[⟨"bob", []⟩]] :=
  ⟨rfl, by decide, by decide⟩

/-- C5: the sender-address validation passes `a.b-c@d-e.com`, fails
`not-an-email`, `a@b` and the empty string, and whenever it fails the
dispatcher returns without consulting the mail capability at all. -/
theorem claim_C5_sender_validation :
    reMatchMailPattern "a.b-c@d-e.com" = true ∧
    reMatchMailPattern "not-an-email" = false ∧
    reMatchMailPattern "a@b" = false ∧
    reMatchMailPattern "" = false ∧
    ∀ (sm : String) (send : SendCall → Except String Unit) (info : AccessKeyInfo),
      reMatchMailPattern sm = false →
      notifyKeyAges (some sm) send info = Except.ok NotifyOutcome.invalidSourceMail := by
  refine ⟨by decide, by decide, by decide, by decide, ?_⟩
  intro sm send info h
  simp [notifyKeyAges, h]

/-- Closed instance of `claim_C5_sender_validation`'s implication at the
rejected sender `a@b`. -/
theorem claim_C5_sender_validation_witness :
    notifyKeyAges (some "a@b") (fun _ => Except.ok ()) sampleInfo =
      Except.ok NotifyOutcome.invalidSourceMail :=
  claim_C5_sender_validation.2.2.2.2 "a@b" (fun _ => Except.ok ()) sampleInfo (by decide)

/-- C6: the dispatcher never raises past its boundary: for every source
mail and every mail capability it returns normally; an absent `SOURCEMAIL`
is a silent no-op, and a failing send is swallowed into a logged
`sendFailed` outcome. -/
theorem claim_C6_dispatcher_never_raises :
    ∀ (sourceMail : Option String) (send : SendCall → Except String Unit)
      (info : AccessKeyInfo),
      (∃ o, notifyKeyAges sourceMail send info = Except.ok o) ∧
      (sourceMail = none →
        notifyKeyAges sourceMail send info = Except.ok NotifyOutcome.noSourceMail) ∧
      (∀ sm e, sourceMail = some sm → reMatchMailPattern sm = true →
        send (buildSendCall sm info) = Except.error e →
        notifyKeyAges sourceMail send info =
          Except.ok (NotifyOutcome.sendFailed (buildSendCall sm info))) := by
  intro sourceMail send info
  refine ⟨?_, ?_, ?_⟩
  · cases sourceMail with
    | none => exact ⟨_, rfl⟩
    | some sm =>
      by_cases h : reMatchMailPattern sm = true
      · cases hs : send (buildSendCall sm info) with
        | ok u =>
          exact ⟨NotifyOutcome.sent (buildSendCall sm info),
            by simp [notifyKeyAges, h, hs]⟩
        | error e =>
          exact ⟨NotifyOutcome.sendFailed (buildSendCall sm info),
            by simp [notifyKeyAges, h, hs]⟩
      · exact ⟨NotifyOutcome.invalidSourceMail, by simp [notifyKeyAges, h]⟩
  · rintro rfl; rfl
  · rintro sm e rfl hm hs
    simp [notifyKeyAges, hm, hs]

/-- Closed instance of `claim_C6_dispatcher_never_raises`: a failing send
is swallowed into a normal return. -/
theorem claim_C6_dispatcher_never_raises_witness :
    notifyKeyAges (some "a@b.com") (fun _ => Except.error "boom") sampleInfo =
      Except.ok (NotifyOutcome.sendFailed (buildSendCall "a@b.com" sampleInfo)) :=
  (claim_C6_dispatcher_never_raises (some "a@b.com") (fun _ => Except.error "boom")
    sampleInfo).2.2 "a@b.com" "boom" rfl (by decide) rfl

/-- C7: the notify threshold is the parsed `NOTIFYKEYAGE` when present and
30 when absent, and the deactivate threshold is always notify + 7 days,
both as day counts and as boundary dates. -/
theorem claim_C7_thresholds (env : Option String) (now : Int) :
    (env = none → readNotifyKeyAge env = Except.ok 30) ∧
    (∀ s v, env = some s → pyInt s = some v → readNotifyKeyAge env = Except.ok v) ∧
    (∀ v, 0 ≤ v → readNotifyKeyAge env = Except.ok v →
      deactivateKeyAgeOf v = v + 7 ∧
      getDeactivateKeyAgeDate now (deactivateKeyAgeOf v) =
        getNotifyKeyAgeDate now v - 7 * minutesPerDay) := by
  refine ⟨?_, ?_, ?_⟩
  · rintro rfl; rfl
  · rintro s v rfl hp
    simp [readNotifyKeyAge, hp]
  · intro v _ _
    refine ⟨rfl, ?_⟩
    unfold getDeactivateKeyAgeDate getNotifyKeyAgeDate deactivateKeyAgeOf
    ring

/-- Closed instance of `claim_C7_thresholds` at `NOTIFYKEYAGE = "45"`. -/
theorem claim_C7_thresholds_witness :
    readNotifyKeyAge (some "45") = Except.ok 45 ∧
    deactivateKeyAgeOf 45 = 45 + 7 ∧
    getDeactivateKeyAgeDate 0 (deactivateKeyAgeOf 45) =
      getNotifyKeyAgeDate 0 45 - 7 * minutesPerDay := by
  have h := claim_C7_thresholds (some "45") 0
  have h1 := h.2.1 "45" 45 rfl (by decide)
  have h2 := h.2.2 45 (by decide) h1
  exact ⟨h1, h2.1, h2.2⟩

/-- C9: classification discards the timezone component: two keys equal in
id, status and contact whose creation timestamps agree after
`replace(tzinfo=None)` receive the same outcome. -/
theorem claim_C9_tz_stripped_outcome (nD dD : Int) (un : String)
    (info₁ info₂ : AccessKeyInfo)
    (_hid : info₁.accessKeyId = info₂.accessKeyId)
    (hstatus : info₁.accessKeyStatus = info₂.accessKeyStatus)
    (hcontact : info₁.contactDetails = info₂.contactDetails)
    (hnaive : info₁.createDate.replaceTzNone = info₂.createDate.replaceTzNone) :
    (classifyKey nD dD un info₁).map actionKind =
      (classifyKey nD dD un info₂).map actionKind := by
  unfold classifyKey
  simp only [hnaive, hstatus, hcontact]
  split_ifs <;> simp [actionKind]

/-- Closed instance of `claim_C9_tz_stripped_outcome`: the sample key with
offset `+120` and the same key with no offset classify identically. -/
theorem claim_C9_tz_stripped_outcome_witness :
    (classifyKey (-43200) (-53280) "alice" sampleInfo).map actionKind =
      (classifyKey (-43200) (-53280) "alice" sampleInfoTz).map actionKind :=
  claim_C9_tz_stripped_outcome (-43200) (-53280) "alice" sampleInfo sampleInfoTz
    rfl rfl rfl rfl

/-- C10: a present but unparseable `NOTIFYKEYAGE` aborts the run with the
uncaught `ValueError`, whatever the providers would have answered (the
failure is provider-independent, so it precedes every provider call). -/
theorem claim_C10_malformed_config_fatal (env : Option String) (s : String)
    (pages : UserPages) (iam : IamModel) (now : Int)
    (hs : env = some s) (hbad : pyInt s = none) :
    lambda_handler env pages iam now =
      Except.error "ValueError: invalid literal for int()" := by
  subst hs
  have h1 : readNotifyKeyAge (some s) =
      Except.error "ValueError: invalid literal for int()" := by
    simp [readNotifyKeyAge, hbad]
  unfold lambda_handler
  rw [h1]
  rfl

/-- Closed instance of `claim_C10_malformed_config_fatal` at
`NOTIFYKEYAGE = "thirty"`. -/
theorem claim_C10_malformed_config_fatal_witness :
    lambda_handler (some "thirty") ⟨[], []⟩ ⟨fun _ => [], fun _ => []⟩ 0 =
      Except.error "ValueError: invalid literal for int()" :=
  claim_C10_malformed_config_fatal (some "thirty") "thirty" ⟨[], []⟩
    ⟨fun _ => [], fun _ => []⟩ 0 rfl (by decide)

end KeyRotation

namespace KeyRotation

/-- C2 as stated is false at the boundary: a key created exactly at the
deactivate boundary instant ("at or before") is `Active` and at the
boundary, yet the pass performs no status update for it and instead
dispatches a notification. -/
theorem claim_C2_counterexample :
    boundaryInfo.accessKeyStatus = "Active" ∧
    boundaryInfo.createDate.replaceTzNone ≤
      getDeactivateKeyAgeDate 0 (deactivateKeyAgeOf 30) ∧
    (identifyKeyAges (getNotifyKeyAgeDate 0 30)
        (getDeactivateKeyAgeDate 0 (deactivateKeyAgeOf 30))
        [{ userName := "bob", accessKeyInfos := [boundaryInfo] }]).filter
        (isUpdateFor "AKIABOUNDARY") = [] ∧
    (identifyKeyAges (getNotifyKeyAgeDate 0 30)
        (getDeactivateKeyAgeDate 0 (deactivateKeyAgeOf 30))
        [{ userName := "bob", accessKeyInfos := [boundaryInfo] }]).filter
        (isDispatchFor "AKIABOUNDARY") = [Action.notifyDispatch boundaryInfo] :=
  ⟨rfl, by decide, by decide, by decide⟩

/-- C2 (amended: strictly before the deactivate boundary): an `Active` key,
occurring once in the inventory, whose stripped creation instant is
strictly before the run's deactivate boundary gets exactly one
`update_access_key` call setting `Inactive` — whatever its contact — and
no notification dispatch. -/
theorem claim_C2_deactivation (now notifyAge : Int) (entries : List KeyEntry)
    (kid userName : String) (info : AccessKeyInfo)
    (hocc : keyOccurrences kid entries = [(userName, info)])
    (hactive : info.accessKeyStatus = "Active")
    (hage : info.createDate.replaceTzNone <
      getDeactivateKeyAgeDate now (deactivateKeyAgeOf notifyAge)) :
    (identifyKeyAges (getNotifyKeyAgeDate now notifyAge)
        (getDeactivateKeyAgeDate now (deactivateKeyAgeOf notifyAge)) entries).filter
        (isUpdateFor kid) =
      [Action.updateAccessKey userName info.accessKeyId "Inactive"] ∧
    (identifyKeyAges (getNotifyKeyAgeDate now notifyAge)
        (getDeactivateKeyAgeDate now (deactivateKeyAgeOf notifyAge)) entries).filter
        (isDispatchFor kid) = [] := by
  have hid : info.accessKeyId = kid :=
    keyOccurrences_id kid entries (userName, info)
      (by rw [hocc]; exact List.mem_singleton_self _)
  constructor
  · rw [identify_filter_key _ _ entries kid (isUpdateFor kid)
      (fun un i h => classifyKey_filter_update_ne _ _ un i kid h), hocc]
    simp only [List.flatMap_cons, List.flatMap_nil, List.append_nil]
    rw [classifyKey_deactivate _ _ userName info hactive hage]
    simp [isUpdateFor, hid]
  · rw [identify_filter_key _ _ entries kid (isDispatchFor kid)
      (fun un i h => classifyKey_filter_dispatch_ne _ _ un i kid h), hocc]
    simp only [List.flatMap_cons, List.flatMap_nil, List.append_nil]
    rw [classifyKey_deactivate _ _ userName info hactive hage]
    simp [isDispatchFor]

/-- Closed instance of `claim_C2_deactivation`: a 40-day-old key at
`NOTIFYKEYAGE = 30` is deactivated exactly once and not notified. -/
theorem claim_C2_deactivation_witness :
    (identifyKeyAges (getNotifyKeyAgeDate 0 30)
        (getDeactivateKeyAgeDate 0 (deactivateKeyAgeOf 30))
        [{ userName := "carol", accessKeyInfos := [oldInfo] }]).filter
        (isUpdateFor "AKIAOLD") =
      [Action.updateAccessKey "carol" oldInfo.accessKeyId "Inactive"] ∧
    (identifyKeyAges (getNotifyKeyAgeDate 0 30)
        (getDeactivateKeyAgeDate 0 (deactivateKeyAgeOf 30))
        [{ userName := "carol", accessKeyInfos := [oldInfo] }]).filter
        (isDispatchFor "AKIAOLD") = [] :=
  claim_C2_deactivation 0 30 [{ userName := "carol", accessKeyInfos := [oldInfo] }]
    "AKIAOLD" "carol" oldInfo (by decide) rfl (by decide)

/-- C3: an `Active` key, occurring once in the inventory, strictly between
the run's deactivate and notify boundaries and with a non-empty contact,
is dispatched for notification exactly once; the dispatched record carries
that key id and contact, every mail built from it is addressed to that
contact with the key id embedded in the subject, and no status update
occurs for the key. -/
theorem claim_C3_notification (now notifyAge : Int) (entries : List KeyEntry)
    (kid userName : String) (info : AccessKeyInfo)
    (hocc : keyOccurrences kid entries = [(userName, info)])
    (hactive : info.accessKeyStatus = "Active")
    (hlo : getDeactivateKeyAgeDate now (deactivateKeyAgeOf notifyAge) <
      info.createDate.replaceTzNone)
    (hhi : info.createDate.replaceTzNone < getNotifyKeyAgeDate now notifyAge)
    (hcontact : info.contactDetails ≠ "") :
    (identifyKeyAges (getNotifyKeyAgeDate now notifyAge)
        (getDeactivateKeyAgeDate now (deactivateKeyAgeOf notifyAge)) entries).filter
        (isDispatchFor kid) = [Action.notifyDispatch info] ∧
    (∀ sm : String,
      (buildSendCall sm info).toAddresses = [info.contactDetails] ∧
      ∃ pre suff, (buildSendCall sm info).subject = pre ++ kid ++ suff) ∧
    (identifyKeyAges (getNotifyKeyAgeDate now notifyAge)
        (getDeactivateKeyAgeDate now (deactivateKeyAgeOf notifyAge)) entries).filter
        (isUpdateFor kid) = [] := by
  have hid : info.accessKeyId = kid :=
    keyOccurrences_id kid entries (userName, info)
      (by rw [hocc]; exact List.mem_singleton_self _)
  have hlo' : ¬ info.createDate.replaceTzNone <
      getDeactivateKeyAgeDate now (deactivateKeyAgeOf notifyAge) :=
    not_lt.mpr (le_of_lt hlo)
  refine ⟨?_, ?_, ?_⟩
  · rw [identify_filter_key _ _ entries kid (isDispatchFor kid)
      (fun un i h => classifyKey_filter_dispatch_ne _ _ un i kid h), hocc]
    simp only [List.flatMap_cons, List.flatMap_nil, List.append_nil]
    rw [classifyKey_notify _ _ userName info hactive hlo' hhi hcontact]
    simp [isDispatchFor, hid]
  · intro sm
    refine ⟨rfl, "Rotate your AWS Credentials (KeyID: ", ")", ?_⟩
    rw [← hid]
    rfl
  · rw [identify_filter_key _ _ entries kid (isUpdateFor kid)
      (fun un i h => classifyKey_filter_update_ne _ _ un i kid h), hocc]
    simp only [List.flatMap_cons, List.flatMap_nil, List.append_nil]
    rw [classifyKey_notify _ _ userName info hactive hlo' hhi hcontact]
    simp [isUpdateFor]

/-- Closed instance of `claim_C3_notification`: a 32-day-old key at
`NOTIFYKEYAGE = 30` with contact `alice@example.com` is dispatched once
and not deactivated. -/
theorem claim_C3_notification_witness :
    (identifyKeyAges (getNotifyKeyAgeDate 0 30)
        (getDeactivateKeyAgeDate 0 (deactivateKeyAgeOf 30))
        [{ userName := "alice", accessKeyInfos := [sampleInfo] }]).filter
        (isDispatchFor "AKIAEXAMPLE") = [Action.notifyDispatch sampleInfo] ∧
    (∀ sm : String,
      (buildSendCall sm sampleInfo).toAddresses = [sampleInfo.contactDetails] ∧
      ∃ pre suff, (buildSendCall sm sampleInfo).subject = pre ++ "AKIAEXAMPLE" ++ suff) ∧
    (identifyKeyAges (getNotifyKeyAgeDate 0 30)
        (getDeactivateKeyAgeDate 0 (deactivateKeyAgeOf 30))
        [{ userName := "alice", accessKeyInfos := [sampleInfo] }]).filter
        (isUpdateFor "AKIAEXAMPLE") = [] :=
  claim_C3_notification 0 30 [{ userName := "alice", accessKeyInfos := [sampleInfo] }]
    "AKIAEXAMPLE" "alice" sampleInfo (by decide) rfl (by decide) (by decide) (by decide)

/-- C4: a key all of whose inventory occurrences are `Inactive` is never
acted upon — no status update and no notification dispatch target it,
whatever the thresholds, its age or its contact. -/
theorem claim_C4_inactive_untouched (nD dD : Int) (entries : List KeyEntry)
    (kid : String)
    (hinactive : ∀ q ∈ keyOccurrences kid entries,
      q.2.accessKeyStatus = "Inactive") :
    (identifyKeyAges nD dD entries).filter (isUpdateFor kid) = [] ∧
    (identifyKeyAges nD dD entries).filter (isDispatchFor kid) = [] := by
  constructor
  · rw [identify_filter_key nD dD entries kid (isUpdateFor kid)
      (fun un i h => classifyKey_filter_update_ne nD dD un i kid h)]
    rw [List.flatMap_eq_nil_iff]
    intro q hq
    rw [classifyKey_not_active nD dD q.1 q.2
      (by rw [hinactive q hq]; decide)]
    rfl
  · rw [identify_filter_key nD dD entries kid (isDispatchFor kid)
      (fun un i h => classifyKey_filter_dispatch_ne nD dD un i kid h)]
    rw [List.flatMap_eq_nil_iff]
    intro q hq
    rw [classifyKey_not_active nD dD q.1 q.2
      (by rw [hinactive q hq]; decide)]
    rfl

/-- Closed instance of `claim_C4_inactive_untouched`: a long-expired
`Inactive` key triggers no action. -/
theorem claim_C4_inactive_untouched_witness :
    (identifyKeyAges (getNotifyKeyAgeDate 0 30)
        (getDeactivateKeyAgeDate 0 (deactivateKeyAgeOf 30))
        [{ userName := "dave", accessKeyInfos := [inactiveInfo] }]).filter
        (isUpdateFor "AKIAINACTIVE") = [] ∧
    (identifyKeyAges (getNotifyKeyAgeDate 0 30)
        (getDeactivateKeyAgeDate 0 (deactivateKeyAgeOf 30))
        [{ userName := "dave", accessKeyInfos := [inactiveInfo] }]).filter
        (isDispatchFor "AKIAINACTIVE") = [] :=
  claim_C4_inactive_untouched (getNotifyKeyAgeDate 0 30)
    (getDeactivateKeyAgeDate 0 (deactivateKeyAgeOf 30))
    [{ userName := "dave", accessKeyInfos := [inactiveInfo] }]
    "AKIAINACTIVE" (by decide)

/-- C8: the inventory is exactly the users owning at least one key, in
order, each mapped to its key records — users with zero keys leave no
entry, so the inventory length is the count of users with at least one
key. -/
theorem claim_C8_zero_key_users_omitted (iam : IamModel) (users : List IamUser) :
    getAwsAccessKeyAge iam users =
      (users.filter (fun u => decide (iam.listAccessKeys u.userName ≠ []))).map
        (fun u => { userName := u.userName
                    accessKeyInfos := mkAccessKeyInfos iam u.userName }) ∧
    (getAwsAccessKeyAge iam users).length =
      (users.filter (fun u => decide (iam.listAccessKeys u.userName ≠ []))).length := by
  have key : getAwsAccessKeyAge iam users =
      (users.filter (fun u => decide (iam.listAccessKeys u.userName ≠ []))).map
        (fun u => { userName := u.userName
                    accessKeyInfos := mkAccessKeyInfos iam u.userName }) := by
    induction users with
    | nil => rfl
    | cons u us ih =>
      by_cases h : iam.listAccessKeys u.userName = []
      · have h0 : ¬ (mkAccessKeyInfos iam u.userName).length > 0 := by
          simp [mkAccessKeyInfos, h]
        simp [getAwsAccessKeyAge, h0, List.filter_cons, h, ih]
      · have h0 : (mkAccessKeyInfos iam u.userName).length > 0 := by
          simpa [mkAccessKeyInfos] using List.length_pos.mpr h
        simp [getAwsAccessKeyAge, h0, List.filter_cons, h, ih]
  exact ⟨key, by rw [key, List.length_map]⟩

end KeyRotation
